import Mathlib

/-!
Shallow embedding of the Topographic-Robot peripheral HAL
(`src/components/sensors/mpu6050_hal/mpu6050_hal.c`,
`src/components/controllers/pca9685_hal/pca9685_hal.c`,
`src/components/sensors/dht22_hal/include/dht22_hal.h`).

The bus-transaction port (`priv_i2c_*`) is an external collaborator; it is
modelled by an oracle: a list of pending transaction results consumed in
order, together with a trace of the operations issued.  Machine floats are
modelled as rationals; fixed-width integer casts are modelled with explicit
`% 2^w` / two's-complement reinterpretation where the code relies on them.
-/

/-- ESP-IDF style status codes (`esp_err_t`).  Only the codes the sources
use are distinguished; `other` stands for any further nonzero code. -/
inductive EspErr where
  | ok
  | fail
  | no_mem
  | invalid_arg
  | not_found
  | other (code : Nat)
deriving DecidableEq, Repr

/-- One bus operation as issued through the `priv_i2c_*` port. -/
inductive BusOp where
  | i2cInit (scl sda freq busNum : Nat)
  | writeRegByte (reg val busNum addr : Nat)
  | readRegBytes (reg count busNum addr : Nat)
  | writeByte (val busNum : Nat)
deriving DecidableEq, Repr

/-- Outcome of a single bus transaction: a status and (for reads) the bytes
delivered into the caller's buffer. -/
structure TxResult where
  status : EspErr
  data : List Nat
deriving DecidableEq, Repr

/-- Default outcome when the oracle list is exhausted: success, no data. -/
def txOk : TxResult := ⟨.ok, []⟩

/-- The bus-port state: the oracle of pending transaction outcomes and the
trace of operations issued so far. -/
structure Bus where
  pending : List TxResult
  trace : List BusOp
deriving DecidableEq, Repr

/-- Issue one bus operation: consume the next oracle outcome and record the
operation in the trace. -/
def busStep (op : BusOp) (bus : Bus) : TxResult × Bus :=
  (bus.pending.headD txOk, ⟨bus.pending.tail, bus.trace ++ [op]⟩)

/-- `priv_i2c_init` of the port (common/i2c.h collaborator). -/
def priv_i2c_init (scl sda freq busNum : Nat) (bus : Bus) : EspErr × Bus :=
  let (r, bus) := busStep (.i2cInit scl sda freq busNum) bus
  (r.status, bus)

/-- `priv_i2c_write_reg_byte` of the port. -/
def priv_i2c_write_reg_byte (reg val busNum addr : Nat) (bus : Bus) : EspErr × Bus :=
  let (r, bus) := busStep (.writeRegByte reg val busNum addr) bus
  (r.status, bus)

/-- `priv_i2c_read_reg_bytes` of the port: returns the status and the bytes
written into the caller's buffer. -/
def priv_i2c_read_reg_bytes (reg count busNum addr : Nat) (bus : Bus) :
    (EspErr × List Nat) × Bus :=
  let (r, bus) := busStep (.readRegBytes reg count busNum addr) bus
  ((r.status, r.data), bus)

/-- `priv_i2c_write_byte` of the port. -/
def priv_i2c_write_byte (val busNum : Nat) (bus : Bus) : EspErr × Bus :=
  let (r, bus) := busStep (.writeByte val busNum) bus
  (r.status, bus)

/-! ## MPU6050 -/

/-- Modelled from the spec: `mpu6050_hal.h` is not under `src/`, so the
closed state set of the device state machine is taken from spec §4.1
(`uninitialized / ready / updated`, error variants `power_on_error`,
`reset_error`, `transport_error`, `verification_error`, generic `error`).
The `.c` file assigns `uninitialized`, `ready`, `data_updated`,
`power_on_error`, `reset_error` and `error`. -/
inductive Mpu6050State where
  | ready
  | data_updated
  | uninitialized
  | power_on_error
  | reset_error
  | transport_error
  | verification_error
  | error
deriving DecidableEq, Repr

/-- Modelled from the spec: the bit-flag test `state & k_mpu6050_error`
(mpu6050_hal.c line 243) with the numeric flag values of the missing header
is modelled as "state is an error variant" per spec §4.2. -/
def Mpu6050State.isErrorVariant : Mpu6050State → Bool
  | .power_on_error => true
  | .reset_error => true
  | .transport_error => true
  | .verification_error => true
  | .error => true
  | _ => false

/-- `mpu6050_data_t`: readings are floats in the C struct, modelled as ℚ. -/
structure Mpu6050Data where
  i2c_address : Nat
  i2c_bus : Nat
  gyro_x : ℚ
  gyro_y : ℚ
  gyro_z : ℚ
  accel_x : ℚ
  accel_y : ℚ
  accel_z : ℚ
  state : Mpu6050State
deriving DecidableEq, Repr

def mpu6050_i2c_address : Nat := 0x68
def mpu6050_i2c_bus : Nat := 0
def mpu6050_scl_io : Nat := 22
def mpu6050_sda_io : Nat := 21
def mpu6050_i2c_freq_hz : Nat := 100000
def mpu6050_sample_rate_div : Nat := 9

/-- Modelled from the spec: register command constants live in the missing
`mpu6050_hal.h`; datasheet values are used.  No claim depends on the
particular numbers. -/
def k_mpu6050_pwr_mgmt_1_cmd : Nat := 0x6B
def k_mpu6050_power_on_cmd : Nat := 0x00
def k_mpu6050_reset_cmd : Nat := 0x80
def k_mpu6050_smplrt_div_cmd : Nat := 0x19
def k_mpu6050_config_cmd : Nat := 0x1A
def k_mpu6050_config_dlpf : Nat := 0x03
def k_mpu6050_gyro_config_cmd : Nat := 0x1B
def k_mpu6050_accel_config_cmd : Nat := 0x1C
def k_mpu6050_who_am_i_cmd : Nat := 0x75
def k_mpu6050_who_am_i_response : Nat := 0x68
def k_mpu6050_accel_xout_h_cmd : Nat := 0x3B
def k_mpu6050_gyro_xout_h_cmd : Nat := 0x43

/-- Gyro register value for the chosen index 3 (±2000°/s). -/
def mpu6050_gyro_config_val : Nat := 0x18
/-- Accel register value for the chosen index 3 (±16g). -/
def mpu6050_accel_config_val : Nat := 0x18
/-- Accel sensitivity at index 3 (±16g): 2048 LSB/g. -/
def mpu6050_accel_scale : ℚ := 2048
/-- Gyro sensitivity at index 3 (±2000°/s): 16.4 LSB/°/s. -/
def mpu6050_gyro_scale : ℚ := 82 / 5

/-- `mpu6050_init` (mpu6050_hal.c lines 80–181).  Zeroes the reading
fields and sets `uninitialized`, then runs the register sequence; each
failing step returns immediately with the state assignment the source
makes (or none). -/
def mpu6050_init (d : Mpu6050Data) (bus : Bus) : EspErr × Mpu6050Data × Bus :=
  let d : Mpu6050Data :=
    { d with i2c_address := mpu6050_i2c_address, i2c_bus := mpu6050_i2c_bus,
             gyro_x := 0, gyro_y := 0, gyro_z := 0,
             accel_x := 0, accel_y := 0, accel_z := 0,
             state := .uninitialized }
  let (ret, bus) := priv_i2c_init mpu6050_scl_io mpu6050_sda_io
      mpu6050_i2c_freq_hz mpu6050_i2c_bus bus
  if ret ≠ .ok then (ret, d, bus) else
  let (ret, bus) := priv_i2c_write_reg_byte k_mpu6050_pwr_mgmt_1_cmd
      k_mpu6050_power_on_cmd mpu6050_i2c_bus mpu6050_i2c_address bus
  if ret ≠ .ok then (ret, { d with state := .power_on_error }, bus) else
  let (ret, bus) := priv_i2c_write_reg_byte k_mpu6050_pwr_mgmt_1_cmd
      k_mpu6050_reset_cmd mpu6050_i2c_bus mpu6050_i2c_address bus
  if ret ≠ .ok then (ret, { d with state := .reset_error }, bus) else
  let (ret, bus) := priv_i2c_write_reg_byte k_mpu6050_pwr_mgmt_1_cmd
      k_mpu6050_power_on_cmd mpu6050_i2c_bus mpu6050_i2c_address bus
  if ret ≠ .ok then (ret, { d with state := .power_on_error }, bus) else
  let (ret, bus) := priv_i2c_write_reg_byte k_mpu6050_smplrt_div_cmd
      mpu6050_sample_rate_div mpu6050_i2c_bus mpu6050_i2c_address bus
  if ret ≠ .ok then (ret, d, bus) else
  let (ret, bus) := priv_i2c_write_reg_byte k_mpu6050_config_cmd
      k_mpu6050_config_dlpf mpu6050_i2c_bus mpu6050_i2c_address bus
  if ret ≠ .ok then (ret, d, bus) else
  let (ret, bus) := priv_i2c_write_reg_byte k_mpu6050_gyro_config_cmd
      mpu6050_gyro_config_val mpu6050_i2c_bus mpu6050_i2c_address bus
  if ret ≠ .ok then (ret, d, bus) else
  let (ret, bus) := priv_i2c_write_reg_byte k_mpu6050_accel_config_cmd
      mpu6050_accel_config_val mpu6050_i2c_bus mpu6050_i2c_address bus
  if ret ≠ .ok then (ret, d, bus) else
  let (rw, bus) := priv_i2c_read_reg_bytes k_mpu6050_who_am_i_cmd 1
      mpu6050_i2c_bus mpu6050_i2c_address bus
  let ret := rw.1
  let who_am_i := (rw.2.headD 0) % 256
  if ret ≠ .ok ∨ who_am_i ≠ k_mpu6050_who_am_i_response then (ret, d, bus) else
  (.ok, { d with state := .ready }, bus)

/-- Byte `i` of a read buffer (uint8 contents). -/
def byteAt (data : List Nat) (i : Nat) : Nat := data.getD i 0 % 256

/-- Reinterpret a 16-bit value as a signed `int16_t`. -/
def toInt16 (n : Nat) : ℤ :=
  if n % 65536 < 32768 then (n % 65536 : ℤ) else (n % 65536 : ℤ) - 65536

/-- `(int16_t)((data[i] << 8) | data[i+1])`. -/
def rawOf (data : List Nat) (i : Nat) : ℤ :=
  toInt16 (byteAt data i * 256 + byteAt data (i + 1))

/-- `mpu6050_read` (mpu6050_hal.c lines 183–238): two six-byte register
block reads; any failure sets `error` and leaves the readings untouched;
success converts all six raw values and sets `data_updated`.  (The C NULL
pointer guard has no counterpart in the value-level model.) -/
def mpu6050_read (d : Mpu6050Data) (bus : Bus) : Mpu6050Data × Bus :=
  let (ra, bus) := priv_i2c_read_reg_bytes k_mpu6050_accel_xout_h_cmd 6
      d.i2c_bus d.i2c_address bus
  if ra.1 ≠ .ok then ({ d with state := .error }, bus) else
  let (rg, bus) := priv_i2c_read_reg_bytes k_mpu6050_gyro_xout_h_cmd 6
      d.i2c_bus d.i2c_address bus
  if rg.1 ≠ .ok then ({ d with state := .error }, bus) else
  ({ d with
      accel_x := (rawOf ra.2 0 : ℚ) / mpu6050_accel_scale,
      accel_y := (rawOf ra.2 2 : ℚ) / mpu6050_accel_scale,
      accel_z := (rawOf ra.2 4 : ℚ) / mpu6050_accel_scale,
      gyro_x := (rawOf rg.2 0 : ℚ) / mpu6050_gyro_scale,
      gyro_y := (rawOf rg.2 2 : ℚ) / mpu6050_gyro_scale,
      gyro_z := (rawOf rg.2 4 : ℚ) / mpu6050_gyro_scale,
      state := .data_updated }, bus)

/-- `mpu6050_reset_on_error` (mpu6050_hal.c lines 240–257): whenever the
state is an error variant it immediately re-runs `mpu6050_init`; success
sets `ready`, failure sets `reset_error`.  There is no elapsed-time check
and no retry bookkeeping in this source file. -/
def mpu6050_reset_on_error (d : Mpu6050Data) (bus : Bus) : Mpu6050Data × Bus :=
  if d.state.isErrorVariant then
    let (r, d2, bus2) := mpu6050_init d bus
    if r = .ok then ({ d2 with state := .ready }, bus2)
    else ({ d2 with state := .reset_error }, bus2)
  else (d, bus)

/-! ## DHT22 -/

/-- `dht22_states_t` (dht22_hal.h lines 166–171). -/
inductive Dht22State where
  | ready
  | data_updated
  | uninitialized
  | error
deriving DecidableEq, Repr

/-- `dht22_data_t` (dht22_hal.h lines 193–201); floats modelled as ℚ,
tick counts as ℕ. -/
structure Dht22Data where
  temperature_f : ℚ
  temperature_c : ℚ
  humidity : ℚ
  state : Dht22State
  retry_count : Nat
  retry_interval : Nat
  last_attempt_ticks : Nat
deriving DecidableEq, Repr

/-- Modelled from the spec: `dht22_hal.c` is not under `src/`; only the
header's contract for `dht22_reset_on_error` (dht22_hal.h lines 256–280)
and spec §4.2 describe it.  Arguments: the configured constants
`dht22_max_retries`, `dht22_initial_retry_interval`,
`dht22_max_backoff_interval` (extern, values not in `src/`), the device,
the current tick count, and the outcome of the re-initialization attempt
(`dht22_init` is also not in `src/`).  Returns the new device record and
whether a re-initialization attempt was made.  Per the contract: do
nothing unless the state shows the error flag; do nothing if less than
`retry_interval` ticks elapsed since `last_attempt_ticks`; otherwise
attempt re-init, resetting count and interval on success, and on failure
incrementing the count, doubling the interval (capped) with the count
reset once the count reaches `max_retries`; `last_attempt_ticks` is
updated on every attempt regardless of outcome. -/
def dht22_reset_on_error (maxRetries initialInterval maxBackoff : Nat)
    (d : Dht22Data) (now : Nat) (initOk : Bool) : Dht22Data × Bool :=
  if d.state ≠ .error then (d, false)
  else if now - d.last_attempt_ticks < d.retry_interval then (d, false)
  else if initOk then
    ({ d with state := .ready, retry_count := 0,
              retry_interval := initialInterval,
              last_attempt_ticks := now }, true)
  else
    let count := d.retry_count + 1
    if count ≥ maxRetries then
      ({ d with retry_count := 0,
                retry_interval := min (2 * d.retry_interval) maxBackoff,
                last_attempt_ticks := now }, true)
    else
      ({ d with retry_count := count, last_attempt_ticks := now }, true)

/-! ## PCA9685 -/

def pca9685_scl_io : Nat := 22
def pca9685_sda_io : Nat := 21
def pca9685_i2c_freq_hz : Nat := 100000
def pca9685_i2c_address : Nat := 0x40
def pca9685_osc_freq : Nat := 25000000
def pca9685_pwm_resolution : Nat := 4096
def pca9685_default_pwm_freq : Nat := 50
def pca9685_max_pwm_value : Nat := 4095

/-- Modelled from the spec: `pca9685_hal.h` is not under `src/`; datasheet
values for the register command constants.  No claim depends on the
particular numbers. -/
def k_pca9685_mode1_cmd : Nat := 0x00
def k_pca9685_sleep_cmd : Nat := 0x10
def k_pca9685_restart_cmd : Nat := 0x80
def k_pca9685_prescale_cmd : Nat := 0xFE
def k_pca9685_channel0_on_l_cmd : Nat := 0x06

/-- `priv_calculate_prescaler` (pca9685_hal.c lines 26–28); the uint8 cast
is the final `% 256`. -/
def priv_calculate_prescaler (pwm_freq : Nat) : Nat :=
  (pca9685_osc_freq / (pca9685_pwm_resolution * pwm_freq) - 1) % 256

/-- `pca9685_board_t` node contents (the hand-linked list is modelled as a
Lean list in registration order, head = most recently prepended). -/
structure Pca9685Board where
  i2c_bus : Nat
  state : Bool          -- `k_pca9685_ready` or not
  board_id : Nat
  num_boards : Nat
deriving DecidableEq, Repr

/-- The registration loop body of `pca9685_init` (pca9685_hal.c lines
36–110), one iteration per logical id: skip ids already present, else
allocate (oracle `allocs`, head consumed per allocation attempt), run the
five-transaction configuration sequence, and prepend the new node on
success; any failure returns immediately. -/
def pca9685_init_list (ids : List Nat) (reg : List Pca9685Board)
    (num_boards : Nat) (allocs : List Bool) (bus : Bus) :
    EspErr × List Pca9685Board × Bus :=
  match ids with
  | [] => (.ok, reg, bus)
  | i :: rest =>
    if reg.any (fun b => b.board_id == i) then
      pca9685_init_list rest reg num_boards allocs bus
    else if allocs.headD true = false then (.no_mem, reg, bus)
    else
      let busAddr := pca9685_i2c_address + i
      let (r, bus) := priv_i2c_init pca9685_scl_io pca9685_sda_io
          pca9685_i2c_freq_hz busAddr bus
      if r ≠ .ok then (r, reg, bus) else
      let (r, bus) := priv_i2c_write_byte
          (k_pca9685_mode1_cmd ||| k_pca9685_sleep_cmd) busAddr bus
      if r ≠ .ok then (r, reg, bus) else
      let (r, bus) := priv_i2c_write_byte k_pca9685_prescale_cmd busAddr bus
      if r ≠ .ok then (r, reg, bus) else
      let (r, bus) := priv_i2c_write_byte
          (priv_calculate_prescaler pca9685_default_pwm_freq) busAddr bus
      if r ≠ .ok then (r, reg, bus) else
      let (r, bus) := priv_i2c_write_byte
          (k_pca9685_mode1_cmd ||| k_pca9685_restart_cmd) busAddr bus
      if r ≠ .ok then (r, reg, bus) else
      pca9685_init_list rest
        (⟨busAddr, true, i, num_boards⟩ :: reg) num_boards allocs.tail bus

/-- `pca9685_init` (pca9685_hal.c lines 32–113). -/
def pca9685_init (reg : List Pca9685Board) (num_boards : Nat)
    (allocs : List Bool) (bus : Bus) : EspErr × List Pca9685Board × Bus :=
  pca9685_init_list (List.range num_boards) reg num_boards allocs bus

/-- `(uint16_t)((angle / 180.0f) * pca9685_max_pwm_value)`
(pca9685_hal.c line 141); the float angle is modelled as ℚ and the
truncating uint16 cast as `Int.toNat ∘ Int.floor` (the argument is
nonnegative on the claimed domain) followed by `% 65536`. -/
def pulse_length (angle : ℚ) : Nat :=
  (⌊angle / 180 * (pca9685_max_pwm_value : ℚ)⌋).toNat % 65536

/-- The per-channel loop of `pca9685_set_angle` (pca9685_hal.c lines
144–174): for each channel whose bit is set in the mask, three fallible
single-byte writes (the channel's ON_L register command, then the low and
high bytes of the pulse length); the first failure aborts. -/
def pca9685_write_channels (channels : List Nat) (mask pulse busAddr : Nat)
    (bus : Bus) : EspErr × Bus :=
  match channels with
  | [] => (.ok, bus)
  | c :: rest =>
    if mask.testBit c then
      let (r, bus) := priv_i2c_write_byte
          (k_pca9685_channel0_on_l_cmd + 4 * c) busAddr bus
      if r ≠ .ok then (r, bus) else
      let (r, bus) := priv_i2c_write_byte (pulse % 256) busAddr bus
      if r ≠ .ok then (r, bus) else
      let (r, bus) := priv_i2c_write_byte (pulse / 256 % 256) busAddr bus
      if r ≠ .ok then (r, bus) else
      pca9685_write_channels rest mask pulse busAddr bus
    else pca9685_write_channels rest mask pulse busAddr bus

/-- The board lookup walk of `pca9685_set_angle` (pca9685_hal.c lines
131–181): find the node with the given id; if found, require `ready` and
run the channel writes; if the walk exhausts the list, `not_found`. -/
def pca9685_find_board (reg : List Pca9685Board) (mask bid : Nat)
    (angle : ℚ) (bus : Bus) : EspErr × Bus :=
  match reg with
  | [] => (.not_found, bus)
  | b :: rest =>
    if b.board_id == bid then
      if b.state = false then (.fail, bus)
      else pca9685_write_channels (List.range 16) mask
          (pulse_length angle) b.i2c_bus bus
    else pca9685_find_board rest mask bid angle bus

/-- `pca9685_set_angle` (pca9685_hal.c lines 115–182): NULL list and
`board_id ≥ head.num_boards` are rejected as `invalid_arg` before the
lookup walk. -/
def pca9685_set_angle (reg : List Pca9685Board) (mask bid : Nat)
    (angle : ℚ) (bus : Bus) : EspErr × Bus :=
  match reg with
  | [] => (.invalid_arg, bus)
  | head :: _ =>
    if bid ≥ head.num_boards then (.invalid_arg, bus)
    else pca9685_find_board reg mask bid angle bus

/-! ## Helper lemmas -/

lemma mpu6050_init_master (d : Mpu6050Data) (bus : Bus) :
    ((mpu6050_init d bus).2.1.accel_x = 0 ∧ (mpu6050_init d bus).2.1.accel_y = 0 ∧
     (mpu6050_init d bus).2.1.accel_z = 0 ∧ (mpu6050_init d bus).2.1.gyro_x = 0 ∧
     (mpu6050_init d bus).2.1.gyro_y = 0 ∧ (mpu6050_init d bus).2.1.gyro_z = 0) ∧
    bus.trace.length < (mpu6050_init d bus).2.2.trace.length := by
  unfold mpu6050_init priv_i2c_init priv_i2c_write_reg_byte
    priv_i2c_read_reg_bytes busStep
  dsimp only
  by_cases h1 : (bus.pending.headD txOk).status = EspErr.ok
  case neg =>
    rw [if_pos h1]
    refine ⟨by simp, ?_⟩
    simp only [List.length_append, List.length_cons, List.length_nil]
    omega
  rw [if_neg (not_not_intro h1)]
  by_cases h2 : (bus.pending.tail.headD txOk).status = EspErr.ok
  case neg =>
    rw [if_pos h2]
    refine ⟨by simp, ?_⟩
    simp only [List.length_append, List.length_cons, List.length_nil]
    omega
  rw [if_neg (not_not_intro h2)]
  by_cases h3 : (bus.pending.tail.tail.headD txOk).status = EspErr.ok
  case neg =>
    rw [if_pos h3]
    refine ⟨by simp, ?_⟩
    simp only [List.length_append, List.length_cons, List.length_nil]
    omega
  rw [if_neg (not_not_intro h3)]
  by_cases h4 : (bus.pending.tail.tail.tail.headD txOk).status = EspErr.ok
  case neg =>
    rw [if_pos h4]
    refine ⟨by simp, ?_⟩
    simp only [List.length_append, List.length_cons, List.length_nil]
    omega
  rw [if_neg (not_not_intro h4)]
  by_cases h5 : (bus.pending.tail.tail.tail.tail.headD txOk).status = EspErr.ok
  case neg =>
    rw [if_pos h5]
    refine ⟨by simp, ?_⟩
    simp only [List.length_append, List.length_cons, List.length_nil]
    omega
  rw [if_neg (not_not_intro h5)]
  by_cases h6 : (bus.pending.tail.tail.tail.tail.tail.headD txOk).status = EspErr.ok
  case neg =>
    rw [if_pos h6]
    refine ⟨by simp, ?_⟩
    simp only [List.length_append, List.length_cons, List.length_nil]
    omega
  rw [if_neg (not_not_intro h6)]
  by_cases h7 : (bus.pending.tail.tail.tail.tail.tail.tail.headD txOk).status = EspErr.ok
  case neg =>
    rw [if_pos h7]
    refine ⟨by simp, ?_⟩
    simp only [List.length_append, List.length_cons, List.length_nil]
    omega
  rw [if_neg (not_not_intro h7)]
  by_cases h8 : (bus.pending.tail.tail.tail.tail.tail.tail.tail.headD txOk).status = EspErr.ok
  case neg =>
    rw [if_pos h8]
    refine ⟨by simp, ?_⟩
    simp only [List.length_append, List.length_cons, List.length_nil]
    omega
  rw [if_neg (not_not_intro h8)]
  by_cases h9 :
      (bus.pending.tail.tail.tail.tail.tail.tail.tail.tail.headD txOk).status ≠ EspErr.ok ∨
      (bus.pending.tail.tail.tail.tail.tail.tail.tail.tail.headD txOk).data.headD 0 % 256 ≠
        k_mpu6050_who_am_i_response
  · rw [if_pos h9]
    refine ⟨by simp, ?_⟩
    simp only [List.length_append, List.length_cons, List.length_nil]
    omega
  · rw [if_neg h9]
    refine ⟨by simp, ?_⟩
    simp only [List.length_append, List.length_cons, List.length_nil]
    omega

/-! ## Claim theorems -/

/-- C1: when every bus transaction up to and including the WHO_AM_I read
succeeds but the byte read (0x00) differs from the expected constant
(0x68), `mpu6050_init` nonetheless returns `ESP_OK` and leaves the state
at `uninitialized`: it neither reports failure nor records a
`verification_error`, contradicting the documented verification gate (the
code even logs a verification failure on this path).  The device is not
declared ready, but initialization reports success. -/
theorem C1_whoami_mismatch_reports_success :
    (mpu6050_init ⟨0, 0, 0, 0, 0, 0, 0, 0, .uninitialized⟩
        ⟨List.replicate 8 txOk ++ [⟨.ok, [0]⟩], []⟩).1 = EspErr.ok ∧
    (mpu6050_init ⟨0, 0, 0, 0, 0, 0, 0, 0, .uninitialized⟩
        ⟨List.replicate 8 txOk ++ [⟨.ok, [0]⟩], []⟩).2.1.state =
      Mpu6050State.uninitialized ∧
    Mpu6050State.uninitialized ≠ Mpu6050State.verification_error := by
  decide

/-- C2 counterexample: the claim fails on `mpu6050_reset_on_error`.  A
device in `transport_error` is re-initialized on the very next recovery
invocation: the call is not a no-op (a bus transaction is issued and the
device record changes), although no time can have elapsed — the function
does not consult any clock or retry interval at all. -/
theorem C2_counterexample :
    Mpu6050State.transport_error.isErrorVariant = true ∧
    (mpu6050_reset_on_error ⟨0, 0, 0, 0, 0, 0, 0, 0, .transport_error⟩
        ⟨[⟨.fail, []⟩], []⟩).2.trace ≠ [] ∧
    (mpu6050_reset_on_error ⟨0, 0, 0, 0, 0, 0, 0, 0, .transport_error⟩
        ⟨[⟨.fail, []⟩], []⟩).1 ≠
      (⟨0, 0, 0, 0, 0, 0, 0, 0, .transport_error⟩ : Mpu6050Data) := by
  decide

/-- C2 amended: the dht22 recovery controller (modelled from the spec, its
implementation not being under `src/`) attempts re-initialization exactly
when the state is the error state and at least `retry_interval` ticks have
elapsed since `last_attempt_ticks`, and is a strict no-op when the elapsed
time is smaller; the mpu6050 recovery routine, by contrast, has no time
gating: it attempts re-initialization (issuing bus transactions) on every
invocation while the state is an error variant. -/
theorem C2_amended :
    (∀ (maxR initI maxB : Nat) (d : Dht22Data) (now : Nat) (initOk : Bool),
        (dht22_reset_on_error maxR initI maxB d now initOk).2 = true ↔
          (d.state = .error ∧ d.retry_interval ≤ now - d.last_attempt_ticks)) ∧
    (∀ (maxR initI maxB : Nat) (d : Dht22Data) (now : Nat) (initOk : Bool),
        d.state = .error → now - d.last_attempt_ticks < d.retry_interval →
          dht22_reset_on_error maxR initI maxB d now initOk = (d, false)) ∧
    (∀ (d : Mpu6050Data) (bus : Bus), d.state.isErrorVariant = true →
        bus.trace.length < (mpu6050_reset_on_error d bus).2.trace.length) := by
  refine ⟨?_, ?_, ?_⟩
  · intro maxR initI maxB d now initOk
    unfold dht22_reset_on_error
    by_cases hs : d.state = Dht22State.error
    · by_cases ht : now - d.last_attempt_ticks < d.retry_interval
      · rw [if_neg (not_not_intro hs), if_pos ht]
        simp [hs]
        omega
      · rw [if_neg (not_not_intro hs), if_neg ht]
        by_cases hok : initOk = true
        · rw [if_pos hok]
          simp [hs]
          omega
        · rw [if_neg hok]
          dsimp only
          split_ifs <;> (simp [hs]; omega)
    · rw [if_pos hs]
      simp [hs]
  · intro maxR initI maxB d now initOk hs ht
    unfold dht22_reset_on_error
    rw [if_neg (not_not_intro hs), if_pos ht]
  · intro d bus h
    have hm := (mpu6050_init_master d bus).2
    unfold mpu6050_reset_on_error
    rw [h]
    rcases hinit : mpu6050_init d bus with ⟨r, d2, bus2⟩
    rw [hinit] at hm
    dsimp at hm ⊢
    split_ifs <;> exact hm

/-- C2 amended, instantiated: a dht22 device that entered the error state
with `last_attempt_ticks = 100` and `retry_interval = 10` is untouched by
a recovery call at tick 105; an mpu6050 device in an error state has a bus
transaction issued by a recovery call. -/
theorem C2_amended_witness :
    dht22_reset_on_error 5 10 80 ⟨0, 0, 0, .error, 0, 10, 100⟩ 105 false =
      (⟨0, 0, 0, .error, 0, 10, 100⟩, false) ∧
    (0 : Nat) < (mpu6050_reset_on_error ⟨0, 0, 0, 0, 0, 0, 0, 0, .error⟩
        ⟨[], []⟩).2.trace.length :=
  ⟨C2_amended.2.1 5 10 80 ⟨0, 0, 0, .error, 0, 10, 100⟩ 105 false (by decide)
      (by decide),
    C2_amended.2.2 ⟨0, 0, 0, 0, 0, 0, 0, 0, .error⟩ ⟨[], []⟩ (by decide)⟩

/-- C6 counterexample: the claim fails on the code.  A device in the
generic `error` state whose re-initialization attempt fails does not keep
its error variant: `mpu6050_reset_on_error` overwrites it with
`reset_error`. -/
theorem C6_counterexample :
    Mpu6050State.error.isErrorVariant = true ∧
    (mpu6050_reset_on_error ⟨0, 0, 2, 2, 2, 2, 2, 2, .error⟩
        ⟨[⟨.fail, []⟩], []⟩).1.state = Mpu6050State.reset_error ∧
    Mpu6050State.reset_error ≠ Mpu6050State.error := by
  decide

/-- C6 amended: for every device in an error variant, a recovery
invocation whose re-initialization attempt fails sets the state to
`reset_error`, regardless of which error variant it was before (and the
mpu6050 device carries no retry bookkeeping to change). -/
theorem C6_amended (d : Mpu6050Data) (bus : Bus)
    (h : d.state.isErrorVariant = true)
    (hfail : (mpu6050_init d bus).1 ≠ EspErr.ok) :
    (mpu6050_reset_on_error d bus).1.state = Mpu6050State.reset_error := by
  unfold mpu6050_reset_on_error
  rw [h]
  rcases hinit : mpu6050_init d bus with ⟨r, d2, bus2⟩
  rw [hinit] at hfail
  dsimp at hfail ⊢
  rw [if_neg hfail]

/-- C6 amended, instantiated at a device in the generic error state whose
re-initialization fails at the first bus transaction. -/
theorem C6_amended_witness :
    (mpu6050_reset_on_error ⟨0, 0, 2, 2, 2, 2, 2, 2, .error⟩
        ⟨[⟨.fail, []⟩], []⟩).1.state = Mpu6050State.reset_error :=
  C6_amended ⟨0, 0, 2, 2, 2, 2, 2, 2, .error⟩ ⟨[⟨.fail, []⟩], []⟩
    (by decide) (by decide)

/-- C10: every run of `mpu6050_init` — whatever the bus outcomes — leaves
all six reading fields at 0; if the very first bus transaction already
fails, the returned state is `uninitialized` and exactly one transaction
was issued, showing the zeroing and the state reset precede all bus
traffic; consequently a recovery invocation on a device in an error
variant erases the previous reading (all six fields are 0 afterwards),
even when the re-initialization attempt fails. -/
theorem C10_init_zeroes_readings (d : Mpu6050Data) (bus : Bus) :
    ((mpu6050_init d bus).2.1.accel_x = 0 ∧ (mpu6050_init d bus).2.1.accel_y = 0 ∧
     (mpu6050_init d bus).2.1.accel_z = 0 ∧ (mpu6050_init d bus).2.1.gyro_x = 0 ∧
     (mpu6050_init d bus).2.1.gyro_y = 0 ∧ (mpu6050_init d bus).2.1.gyro_z = 0) ∧
    ((bus.pending.headD txOk).status ≠ EspErr.ok →
      (mpu6050_init d bus).2.1.state = Mpu6050State.uninitialized ∧
      (mpu6050_init d bus).2.2.trace.length = bus.trace.length + 1) ∧
    (d.state.isErrorVariant = true →
      (mpu6050_reset_on_error d bus).1.accel_x = 0 ∧
      (mpu6050_reset_on_error d bus).1.accel_y = 0 ∧
      (mpu6050_reset_on_error d bus).1.accel_z = 0 ∧
      (mpu6050_reset_on_error d bus).1.gyro_x = 0 ∧
      (mpu6050_reset_on_error d bus).1.gyro_y = 0 ∧
      (mpu6050_reset_on_error d bus).1.gyro_z = 0) := by
  refine ⟨(mpu6050_init_master d bus).1, ?_, ?_⟩
  · intro hfirst
    unfold mpu6050_init priv_i2c_init priv_i2c_write_reg_byte
      priv_i2c_read_reg_bytes busStep
    dsimp only
    rw [if_pos hfirst]
    exact ⟨rfl, by simp⟩
  · intro h
    have hm := (mpu6050_init_master d bus).1
    unfold mpu6050_reset_on_error
    rw [h]
    rcases hinit : mpu6050_init d bus with ⟨r, d2, bus2⟩
    rw [hinit] at hm
    dsimp at hm ⊢
    obtain ⟨hax, hay, haz, hgx, hgy, hgz⟩ := hm
    split_ifs <;> exact ⟨hax, hay, haz, hgx, hgy, hgz⟩

/-- C10 instantiated: on a device in the generic error state holding a
nonzero reading, a recovery call whose re-initialization fails at the
first transaction still zeroes all six reading fields, and an init run
whose first transaction fails has state `uninitialized` after one
transaction. -/
theorem C10_init_zeroes_readings_witness :
    (mpu6050_init ⟨0, 0, 2, 2, 2, 2, 2, 2, .error⟩ ⟨[⟨.fail, []⟩], []⟩).2.1.state =
      Mpu6050State.uninitialized ∧
    (mpu6050_reset_on_error ⟨0, 0, 2, 2, 2, 2, 2, 2, .error⟩
        ⟨[⟨.fail, []⟩], []⟩).1.accel_x = 0 :=
  ⟨((C10_init_zeroes_readings ⟨0, 0, 2, 2, 2, 2, 2, 2, .error⟩
        ⟨[⟨.fail, []⟩], []⟩).2.1 (by decide)).1,
    ((C10_init_zeroes_readings ⟨0, 0, 2, 2, 2, 2, 2, 2, .error⟩
        ⟨[⟨.fail, []⟩], []⟩).2.2 (by decide)).1⟩

/-- C4: the read contract of `mpu6050_read`.  If the accelerometer block
read fails, or it succeeds and the gyroscope block read fails, the state
becomes `error` and the device record is otherwise exactly the previous
one (all six reading fields retain their prior values; the bytes already
read are discarded).  If both block reads succeed, the state becomes
`data_updated` and all six reading fields are written from the newly read
bytes. -/
theorem C4_read_contract :
    (∀ (d : Mpu6050Data) (e : EspErr) (dat : List Nat) (rest : List TxResult)
        (tr : List BusOp), e ≠ EspErr.ok →
        mpu6050_read d ⟨⟨e, dat⟩ :: rest, tr⟩ =
          ({ d with state := .error },
            ⟨rest, tr ++ [BusOp.readRegBytes k_mpu6050_accel_xout_h_cmd 6
              d.i2c_bus d.i2c_address]⟩)) ∧
    (∀ (d : Mpu6050Data) (ra : TxResult) (e : EspErr) (dat : List Nat)
        (rest : List TxResult) (tr : List BusOp),
        ra.status = EspErr.ok → e ≠ EspErr.ok →
        mpu6050_read d ⟨ra :: ⟨e, dat⟩ :: rest, tr⟩ =
          ({ d with state := .error },
            ⟨rest, tr ++ [BusOp.readRegBytes k_mpu6050_accel_xout_h_cmd 6
                d.i2c_bus d.i2c_address,
              BusOp.readRegBytes k_mpu6050_gyro_xout_h_cmd 6
                d.i2c_bus d.i2c_address]⟩)) ∧
    (∀ (d : Mpu6050Data) (ra rg : TxResult) (rest : List TxResult)
        (tr : List BusOp),
        ra.status = EspErr.ok → rg.status = EspErr.ok →
        mpu6050_read d ⟨ra :: rg :: rest, tr⟩ =
          ({ d with
              accel_x := (rawOf ra.data 0 : ℚ) / mpu6050_accel_scale,
              accel_y := (rawOf ra.data 2 : ℚ) / mpu6050_accel_scale,
              accel_z := (rawOf ra.data 4 : ℚ) / mpu6050_accel_scale,
              gyro_x := (rawOf rg.data 0 : ℚ) / mpu6050_gyro_scale,
              gyro_y := (rawOf rg.data 2 : ℚ) / mpu6050_gyro_scale,
              gyro_z := (rawOf rg.data 4 : ℚ) / mpu6050_gyro_scale,
              state := .data_updated },
            ⟨rest, tr ++ [BusOp.readRegBytes k_mpu6050_accel_xout_h_cmd 6
                d.i2c_bus d.i2c_address,
              BusOp.readRegBytes k_mpu6050_gyro_xout_h_cmd 6
                d.i2c_bus d.i2c_address]⟩)) := by
  refine ⟨?_, ?_, ?_⟩
  · intro d e dat rest tr he
    simp [mpu6050_read, priv_i2c_read_reg_bytes, busStep, he]
  · intro d ra e dat rest tr h1 he
    simp [mpu6050_read, priv_i2c_read_reg_bytes, busStep, h1, he]
  · intro d ra rg rest tr h1 h2
    simp [mpu6050_read, priv_i2c_read_reg_bytes, busStep, h1, h2]

/-- C4 instantiated: a failed first block read on a device holding
readings 1..6 keeps all six readings and sets `error`; a successful pair
of block reads writes all six readings from the new bytes and sets
`data_updated`. -/
theorem C4_read_contract_witness :
    mpu6050_read ⟨0, 0, 1, 2, 3, 4, 5, 6, .ready⟩ ⟨[⟨.fail, []⟩], []⟩ =
      (⟨0, 0, 1, 2, 3, 4, 5, 6, .error⟩,
        ⟨[], [BusOp.readRegBytes k_mpu6050_accel_xout_h_cmd 6 0 0]⟩) ∧
    mpu6050_read ⟨0, 0, 1, 2, 3, 4, 5, 6, .ready⟩
        ⟨[⟨.ok, [1, 2, 3, 4, 5, 6]⟩, ⟨.ok, [0, 0, 0, 0, 255, 255]⟩], []⟩ =
      (⟨0, 0, (rawOf [0, 0, 0, 0, 255, 255] 0 : ℚ) / mpu6050_gyro_scale,
          (rawOf [0, 0, 0, 0, 255, 255] 2 : ℚ) / mpu6050_gyro_scale,
          (rawOf [0, 0, 0, 0, 255, 255] 4 : ℚ) / mpu6050_gyro_scale,
          (rawOf [1, 2, 3, 4, 5, 6] 0 : ℚ) / mpu6050_accel_scale,
          (rawOf [1, 2, 3, 4, 5, 6] 2 : ℚ) / mpu6050_accel_scale,
          (rawOf [1, 2, 3, 4, 5, 6] 4 : ℚ) / mpu6050_accel_scale,
          .data_updated⟩,
        ⟨[], [BusOp.readRegBytes k_mpu6050_accel_xout_h_cmd 6 0 0,
          BusOp.readRegBytes k_mpu6050_gyro_xout_h_cmd 6 0 0]⟩) :=
  ⟨C4_read_contract.1 ⟨0, 0, 1, 2, 3, 4, 5, 6, .ready⟩ .fail [] [] []
      (by decide),
    C4_read_contract.2.2 ⟨0, 0, 1, 2, 3, 4, 5, 6, .ready⟩
      ⟨.ok, [1, 2, 3, 4, 5, 6]⟩ ⟨.ok, [0, 0, 0, 0, 255, 255]⟩ [] []
      (by decide) (by decide)⟩

/-- C5 counterexample: the claim fails on the code.  When the first four
transactions (driver install, power-on, reset, wake) succeed and the
sample-rate configuration write fails, `mpu6050_init` returns the error
but leaves the state at `uninitialized` — no error variant associated
with the sample-rate sub-step (or any other) is recorded. -/
theorem C5_counterexample :
    (mpu6050_init ⟨0, 0, 0, 0, 0, 0, 0, 0, .uninitialized⟩
        ⟨[txOk, txOk, txOk, txOk, ⟨.fail, []⟩], []⟩).1 = EspErr.fail ∧
    (mpu6050_init ⟨0, 0, 0, 0, 0, 0, 0, 0, .uninitialized⟩
        ⟨[txOk, txOk, txOk, txOk, ⟨.fail, []⟩], []⟩).2.1.state =
      Mpu6050State.uninitialized ∧
    Mpu6050State.uninitialized.isErrorVariant = false := by
  decide

/-- C5 amended: every sub-step failure of `mpu6050_init` short-circuits
the remaining sub-steps (exactly the transactions up to and including the
failing one are issued) and returns the failing status; but only the
power-on, reset and wake sub-steps record an error variant
(`power_on_error`, `reset_error`, `power_on_error` respectively) — a
failure of the driver install, sample-rate, filter, gyro-range,
accel-range or identity-read sub-step leaves the state at
`uninitialized`. -/
theorem C5_amended :
    (∀ (d : Mpu6050Data) (e : EspErr) (dt : List Nat) (rest : List TxResult)
        (tr : List BusOp), e ≠ EspErr.ok →
        (mpu6050_init d ⟨⟨e, dt⟩ :: rest, tr⟩).1 = e ∧
        (mpu6050_init d ⟨⟨e, dt⟩ :: rest, tr⟩).2.1.state = .uninitialized ∧
        (mpu6050_init d ⟨⟨e, dt⟩ :: rest, tr⟩).2.2.trace.length =
          tr.length + 1) ∧
    (∀ (d : Mpu6050Data) (r1 : TxResult) (e : EspErr) (dt : List Nat)
        (rest : List TxResult) (tr : List BusOp),
        r1.status = EspErr.ok → e ≠ EspErr.ok →
        (mpu6050_init d ⟨r1 :: ⟨e, dt⟩ :: rest, tr⟩).1 = e ∧
        (mpu6050_init d ⟨r1 :: ⟨e, dt⟩ :: rest, tr⟩).2.1.state =
          .power_on_error ∧
        (mpu6050_init d ⟨r1 :: ⟨e, dt⟩ :: rest, tr⟩).2.2.trace.length =
          tr.length + 2) ∧
    (∀ (d : Mpu6050Data) (r1 r2 : TxResult) (e : EspErr) (dt : List Nat)
        (rest : List TxResult) (tr : List BusOp),
        r1.status = EspErr.ok → r2.status = EspErr.ok → e ≠ EspErr.ok →
        (mpu6050_init d ⟨r1 :: r2 :: ⟨e, dt⟩ :: rest, tr⟩).1 = e ∧
        (mpu6050_init d ⟨r1 :: r2 :: ⟨e, dt⟩ :: rest, tr⟩).2.1.state =
          .reset_error ∧
        (mpu6050_init d ⟨r1 :: r2 :: ⟨e, dt⟩ :: rest, tr⟩).2.2.trace.length =
          tr.length + 3) ∧
    (∀ (d : Mpu6050Data) (r1 r2 r3 : TxResult) (e : EspErr) (dt : List Nat)
        (rest : List TxResult) (tr : List BusOp),
        r1.status = EspErr.ok → r2.status = EspErr.ok →
        r3.status = EspErr.ok → e ≠ EspErr.ok →
        (mpu6050_init d ⟨r1 :: r2 :: r3 :: ⟨e, dt⟩ :: rest, tr⟩).1 = e ∧
        (mpu6050_init d ⟨r1 :: r2 :: r3 :: ⟨e, dt⟩ :: rest, tr⟩).2.1.state =
          .power_on_error ∧
        (mpu6050_init d
            ⟨r1 :: r2 :: r3 :: ⟨e, dt⟩ :: rest, tr⟩).2.2.trace.length =
          tr.length + 4) ∧
    (∀ (d : Mpu6050Data) (r1 r2 r3 r4 : TxResult) (e : EspErr) (dt : List Nat)
        (rest : List TxResult) (tr : List BusOp),
        r1.status = EspErr.ok → r2.status = EspErr.ok →
        r3.status = EspErr.ok → r4.status = EspErr.ok → e ≠ EspErr.ok →
        (mpu6050_init d
            ⟨r1 :: r2 :: r3 :: r4 :: ⟨e, dt⟩ :: rest, tr⟩).1 = e ∧
        (mpu6050_init d
            ⟨r1 :: r2 :: r3 :: r4 :: ⟨e, dt⟩ :: rest, tr⟩).2.1.state =
          .uninitialized ∧
        (mpu6050_init d
            ⟨r1 :: r2 :: r3 :: r4 :: ⟨e, dt⟩ :: rest, tr⟩).2.2.trace.length =
          tr.length + 5) ∧
    (∀ (d : Mpu6050Data) (r1 r2 r3 r4 r5 : TxResult) (e : EspErr)
        (dt : List Nat) (rest : List TxResult) (tr : List BusOp),
        r1.status = EspErr.ok → r2.status = EspErr.ok →
        r3.status = EspErr.ok → r4.status = EspErr.ok →
        r5.status = EspErr.ok → e ≠ EspErr.ok →
        (mpu6050_init d
            ⟨r1 :: r2 :: r3 :: r4 :: r5 :: ⟨e, dt⟩ :: rest, tr⟩).1 = e ∧
        (mpu6050_init d
            ⟨r1 :: r2 :: r3 :: r4 :: r5 :: ⟨e, dt⟩ :: rest, tr⟩).2.1.state =
          .uninitialized ∧
        (mpu6050_init d
            ⟨r1 :: r2 :: r3 :: r4 :: r5 :: ⟨e, dt⟩ :: rest,
              tr⟩).2.2.trace.length = tr.length + 6) ∧
    (∀ (d : Mpu6050Data) (r1 r2 r3 r4 r5 r6 : TxResult) (e : EspErr)
        (dt : List Nat) (rest : List TxResult) (tr : List BusOp),
        r1.status = EspErr.ok → r2.status = EspErr.ok →
        r3.status = EspErr.ok → r4.status = EspErr.ok →
        r5.status = EspErr.ok → r6.status = EspErr.ok → e ≠ EspErr.ok →
        (mpu6050_init d
            ⟨r1 :: r2 :: r3 :: r4 :: r5 :: r6 :: ⟨e, dt⟩ :: rest, tr⟩).1 =
          e ∧
        (mpu6050_init d
            ⟨r1 :: r2 :: r3 :: r4 :: r5 :: r6 :: ⟨e, dt⟩ :: rest,
              tr⟩).2.1.state = .uninitialized ∧
        (mpu6050_init d
            ⟨r1 :: r2 :: r3 :: r4 :: r5 :: r6 :: ⟨e, dt⟩ :: rest,
              tr⟩).2.2.trace.length = tr.length + 7) ∧
    (∀ (d : Mpu6050Data) (r1 r2 r3 r4 r5 r6 r7 : TxResult) (e : EspErr)
        (dt : List Nat) (rest : List TxResult) (tr : List BusOp),
        r1.status = EspErr.ok → r2.status = EspErr.ok →
        r3.status = EspErr.ok → r4.status = EspErr.ok →
        r5.status = EspErr.ok → r6.status = EspErr.ok →
        r7.status = EspErr.ok → e ≠ EspErr.ok →
        (mpu6050_init d
            ⟨r1 :: r2 :: r3 :: r4 :: r5 :: r6 :: r7 :: ⟨e, dt⟩ :: rest,
              tr⟩).1 = e ∧
        (mpu6050_init d
            ⟨r1 :: r2 :: r3 :: r4 :: r5 :: r6 :: r7 :: ⟨e, dt⟩ :: rest,
              tr⟩).2.1.state = .uninitialized ∧
        (mpu6050_init d
            ⟨r1 :: r2 :: r3 :: r4 :: r5 :: r6 :: r7 :: ⟨e, dt⟩ :: rest,
              tr⟩).2.2.trace.length = tr.length + 8) ∧
    (∀ (d : Mpu6050Data) (r1 r2 r3 r4 r5 r6 r7 r8 : TxResult) (e : EspErr)
        (dt : List Nat) (rest : List TxResult) (tr : List BusOp),
        r1.status = EspErr.ok → r2.status = EspErr.ok →
        r3.status = EspErr.ok → r4.status = EspErr.ok →
        r5.status = EspErr.ok → r6.status = EspErr.ok →
        r7.status = EspErr.ok → r8.status = EspErr.ok → e ≠ EspErr.ok →
        (mpu6050_init d
            ⟨r1 :: r2 :: r3 :: r4 :: r5 :: r6 :: r7 :: r8 :: ⟨e, dt⟩ :: rest,
              tr⟩).1 = e ∧
        (mpu6050_init d
            ⟨r1 :: r2 :: r3 :: r4 :: r5 :: r6 :: r7 :: r8 :: ⟨e, dt⟩ :: rest,
              tr⟩).2.1.state = .uninitialized ∧
        (mpu6050_init d
            ⟨r1 :: r2 :: r3 :: r4 :: r5 :: r6 :: r7 :: r8 :: ⟨e, dt⟩ :: rest,
              tr⟩).2.2.trace.length = tr.length + 9) := by
  refine ⟨?_, ?_, ?_, ?_, ?_, ?_, ?_, ?_, ?_⟩
  · intro d e dt rest tr he
    refine ⟨?_, ?_, ?_⟩ <;>
      simp [mpu6050_init, priv_i2c_init, priv_i2c_write_reg_byte,
        priv_i2c_read_reg_bytes, busStep, he]
  · intro d r1 e dt rest tr h1 he
    refine ⟨?_, ?_, ?_⟩ <;>
      simp [mpu6050_init, priv_i2c_init, priv_i2c_write_reg_byte,
        priv_i2c_read_reg_bytes, busStep, h1, he]
  · intro d r1 r2 e dt rest tr h1 h2 he
    refine ⟨?_, ?_, ?_⟩ <;>
      simp [mpu6050_init, priv_i2c_init, priv_i2c_write_reg_byte,
        priv_i2c_read_reg_bytes, busStep, h1, h2, he]
  · intro d r1 r2 r3 e dt rest tr h1 h2 h3 he
    refine ⟨?_, ?_, ?_⟩ <;>
      simp [mpu6050_init, priv_i2c_init, priv_i2c_write_reg_byte,
        priv_i2c_read_reg_bytes, busStep, h1, h2, h3, he]
  · intro d r1 r2 r3 r4 e dt rest tr h1 h2 h3 h4 he
    refine ⟨?_, ?_, ?_⟩ <;>
      simp [mpu6050_init, priv_i2c_init, priv_i2c_write_reg_byte,
        priv_i2c_read_reg_bytes, busStep, h1, h2, h3, h4, he]
  · intro d r1 r2 r3 r4 r5 e dt rest tr h1 h2 h3 h4 h5 he
    refine ⟨?_, ?_, ?_⟩ <;>
      simp [mpu6050_init, priv_i2c_init, priv_i2c_write_reg_byte,
        priv_i2c_read_reg_bytes, busStep, h1, h2, h3, h4, h5, he]
  · intro d r1 r2 r3 r4 r5 r6 e dt rest tr h1 h2 h3 h4 h5 h6 he
    refine ⟨?_, ?_, ?_⟩ <;>
      simp [mpu6050_init, priv_i2c_init, priv_i2c_write_reg_byte,
        priv_i2c_read_reg_bytes, busStep, h1, h2, h3, h4, h5, h6, he]
  · intro d r1 r2 r3 r4 r5 r6 r7 e dt rest tr h1 h2 h3 h4 h5 h6 h7 he
    refine ⟨?_, ?_, ?_⟩ <;>
      simp [mpu6050_init, priv_i2c_init, priv_i2c_write_reg_byte,
        priv_i2c_read_reg_bytes, busStep, h1, h2, h3, h4, h5, h6, h7, he]
  · intro d r1 r2 r3 r4 r5 r6 r7 r8 e dt rest tr h1 h2 h3 h4 h5 h6 h7 h8 he
    refine ⟨?_, ?_, ?_⟩ <;>
      simp [mpu6050_init, priv_i2c_init, priv_i2c_write_reg_byte,
        priv_i2c_read_reg_bytes, busStep, h1, h2, h3, h4, h5, h6, h7, h8, he]

/-- C5 amended, instantiated: a reset-step failure (third transaction)
records `reset_error` after exactly three transactions. -/
theorem C5_amended_witness :
    (mpu6050_init ⟨0, 0, 0, 0, 0, 0, 0, 0, .uninitialized⟩
        ⟨[txOk, txOk, ⟨.fail, []⟩], []⟩).1 = EspErr.fail ∧
    (mpu6050_init ⟨0, 0, 0, 0, 0, 0, 0, 0, .uninitialized⟩
        ⟨[txOk, txOk, ⟨.fail, []⟩], []⟩).2.1.state =
      Mpu6050State.reset_error ∧
    (mpu6050_init ⟨0, 0, 0, 0, 0, 0, 0, 0, .uninitialized⟩
        ⟨[txOk, txOk, ⟨.fail, []⟩], []⟩).2.2.trace.length = 0 + 3 :=
  C5_amended.2.2.1 ⟨0, 0, 0, 0, 0, 0, 0, 0, .uninitialized⟩ txOk txOk
    .fail [] [] [] (by decide) (by decide) (by decide)

lemma pca9685_init_list_appended (ids : List Nat) (reg : List Pca9685Board)
    (nb : Nat) (allocs : List Bool) (bus : Bus) :
    ∃ added, (pca9685_init_list ids reg nb allocs bus).2.1 = added ++ reg ∧
      ∀ b ∈ added, b.board_id ∈ ids ∧
        b.board_id ∉ reg.map Pca9685Board.board_id := by
  induction ids generalizing reg allocs bus with
  | nil => exact ⟨[], rfl, by simp⟩
  | cons i rest ih =>
    unfold pca9685_init_list
    by_cases hskip : reg.any (fun b => b.board_id == i)
    · rw [if_pos hskip]
      obtain ⟨added, h1, h2⟩ := ih reg allocs bus
      exact ⟨added, h1, fun b hb =>
        ⟨List.mem_cons_of_mem i (h2 b hb).1, (h2 b hb).2⟩⟩
    · rw [if_neg hskip]
      have hnotmem : i ∉ reg.map Pca9685Board.board_id := by
        simp only [List.any_eq_true, beq_iff_eq] at hskip
        simp only [List.mem_map]
        rintro ⟨b, hb, hbi⟩
        exact hskip ⟨b, hb, hbi⟩
      dsimp only [priv_i2c_init, priv_i2c_write_byte, busStep]
      split_ifs <;> try exact ⟨[], rfl, by simp⟩
      obtain ⟨added, h1, h2⟩ := ih
        (⟨pca9685_i2c_address + i, true, i, nb⟩ :: reg) allocs.tail _
      refine ⟨added ++ [⟨pca9685_i2c_address + i, true, i, nb⟩], ?_, ?_⟩
      · rw [h1, List.append_assoc, List.singleton_append]
      · intro b hb
        rcases List.mem_append.mp hb with hb | hb
        · have := h2 b hb
          refine ⟨List.mem_cons_of_mem i this.1, fun hmem => this.2 ?_⟩
          simp only [List.map_cons, List.mem_cons]
          exact Or.inr hmem
        · rcases List.mem_singleton.mp hb with rfl
          exact ⟨List.mem_cons_self i rest, hnotmem⟩

lemma pca9685_init_list_nodup (ids : List Nat) (reg : List Pca9685Board)
    (nb : Nat) (allocs : List Bool) (bus : Bus)
    (h : (reg.map Pca9685Board.board_id).Nodup) :
    ((pca9685_init_list ids reg nb allocs bus).2.1.map
      Pca9685Board.board_id).Nodup := by
  induction ids generalizing reg allocs bus with
  | nil => exact h
  | cons i rest ih =>
    unfold pca9685_init_list
    by_cases hskip : reg.any (fun b => b.board_id == i)
    · rw [if_pos hskip]
      exact ih reg allocs bus h
    · rw [if_neg hskip]
      have hnotmem : i ∉ reg.map Pca9685Board.board_id := by
        simp only [List.any_eq_true, beq_iff_eq] at hskip
        simp only [List.mem_map]
        rintro ⟨b, hb, hbi⟩
        exact hskip ⟨b, hb, hbi⟩
      dsimp only [priv_i2c_init, priv_i2c_write_byte, busStep]
      split_ifs <;> try exact h
      refine ih (⟨pca9685_i2c_address + i, true, i, nb⟩ :: reg) allocs.tail _ ?_
      rw [List.map_cons]
      exact List.nodup_cons.mpr ⟨hnotmem, h⟩

lemma pca9685_init_list_all_present (ids : List Nat) (reg : List Pca9685Board)
    (nb : Nat) (allocs : List Bool) (bus : Bus)
    (h : ∀ i ∈ ids, i ∈ reg.map Pca9685Board.board_id) :
    pca9685_init_list ids reg nb allocs bus = (.ok, reg, bus) := by
  induction ids generalizing reg allocs bus with
  | nil => rfl
  | cons i rest ih =>
    unfold pca9685_init_list
    have hskip : reg.any (fun b => b.board_id == i) = true := by
      obtain ⟨b, hb, hbi⟩ := List.mem_map.mp (h i (List.mem_cons_self i rest))
      simp only [List.any_eq_true, beq_iff_eq]
      exact ⟨b, hb, hbi⟩
    rw [if_pos hskip]
    exact ih reg allocs bus fun j hj => h j (List.mem_cons_of_mem i hj)

/-- C3: registration is idempotent and append-only.  For every registry
whose board ids are duplicate-free, any run of `pca9685_init` (under any
bus and allocation outcomes) returns the old registry with zero or more
new entries prepended — every pre-existing entry, including its stored
bus address, is unchanged and no entry is removed; every added entry has a
board id in `[0, n)` that was not previously registered; the resulting ids
are still duplicate-free (no id is ever duplicated); and when every id in
`[0, n)` is already registered the call changes nothing at all and
succeeds. -/
theorem C3_registration_idempotent (reg : List Pca9685Board) (n : Nat)
    (allocs : List Bool) (bus : Bus)
    (hnd : (reg.map Pca9685Board.board_id).Nodup) :
    (∃ added, (pca9685_init reg n allocs bus).2.1 = added ++ reg ∧
      ∀ b ∈ added, b.board_id < n ∧
        b.board_id ∉ reg.map Pca9685Board.board_id) ∧
    ((pca9685_init reg n allocs bus).2.1.map Pca9685Board.board_id).Nodup ∧
    ((∀ i < n, i ∈ reg.map Pca9685Board.board_id) →
      pca9685_init reg n allocs bus = (.ok, reg, bus)) := by
  refine ⟨?_, ?_, ?_⟩
  · obtain ⟨added, h1, h2⟩ :=
      pca9685_init_list_appended (List.range n) reg n allocs bus
    exact ⟨added, h1, fun b hb =>
      ⟨List.mem_range.mp (h2 b hb).1, (h2 b hb).2⟩⟩
  · exact pca9685_init_list_nodup (List.range n) reg n allocs bus hnd
  · intro hall
    exact pca9685_init_list_all_present (List.range n) reg n allocs bus
      fun i hi => hall i (List.mem_range.mp hi)

/-- C3 instantiated: re-running registration with count 2 on the registry
produced by a successful registration of two boards changes nothing. -/
theorem C3_registration_idempotent_witness :
    pca9685_init [⟨0x41, true, 1, 2⟩, ⟨0x40, true, 0, 2⟩] 2 [] ⟨[], []⟩ =
      (.ok, [⟨0x41, true, 1, 2⟩, ⟨0x40, true, 0, 2⟩], ⟨[], []⟩) :=
  (C3_registration_idempotent [⟨0x41, true, 1, 2⟩, ⟨0x40, true, 0, 2⟩] 2 []
    ⟨[], []⟩ (by decide)).2.2 (by decide)

lemma pulse_length_90 : pulse_length 90 = 2047 := by
  norm_num [pulse_length, pca9685_max_pwm_value]
  decide

lemma pulse_length_toNat_le (a : ℚ) (h1 : a ≤ 180) :
    (⌊a / 180 * (pca9685_max_pwm_value : ℚ)⌋).toNat ≤ 4095 := by
  have hub : a / 180 * (pca9685_max_pwm_value : ℚ) ≤ 4095 := by
    rw [div_mul_eq_mul_div, div_le_iff₀ (by norm_num : (0:ℚ) < 180)]
    norm_num [pca9685_max_pwm_value]
    nlinarith
  have hf : ⌊a / 180 * (pca9685_max_pwm_value : ℚ)⌋ ≤ 4095 := by
    have h2 := Int.floor_le_floor hub
    simpa using h2
  omega

lemma pulse_length_eq_toNat (a : ℚ) (h1 : a ≤ 180) :
    pulse_length a = (⌊a / 180 * (pca9685_max_pwm_value : ℚ)⌋).toNat := by
  unfold pulse_length
  exact Nat.mod_eq_of_lt
    (lt_of_le_of_lt (pulse_length_toNat_le a h1) (by norm_num))

/-- C7 counterexample: the claim fails on the code.  The angle-to-duty
conversion truncates to an integer duty value, so it is not strictly
monotonic over the full angle interval: the angles 0 and 1/256 (both in
[0,180], the latter exactly representable in the float type of the
source) yield the same duty value 0. -/
theorem C7_counterexample :
    (0:ℚ) ≤ 0 ∧ (0:ℚ) < 1/256 ∧ (1/256:ℚ) ≤ 180 ∧
    pulse_length 0 = pulse_length (1/256) := by
  refine ⟨le_refl 0, by norm_num, by norm_num, ?_⟩
  have h1 : pulse_length 0 = 0 := by norm_num [pulse_length]
  have h2 : pulse_length (1/256) = 0 := by
    norm_num [pulse_length, pca9685_max_pwm_value]
  rw [h1, h2]

/-- C7 amended: the angle-to-duty conversion of `pca9685_set_angle` is
monotone (non-decreasing) on [0,180]; it is strictly monotonic on
integer-valued angles (for natural numbers a1 < a2 ≤ 180 the duty value
strictly increases); and the duty value at angle 180 equals the
configured maximum duty value 4095. -/
theorem C7_amended :
    (∀ a1 a2 : ℚ, 0 ≤ a1 → a1 ≤ a2 → a2 ≤ 180 →
      pulse_length a1 ≤ pulse_length a2) ∧
    (∀ a1 a2 : ℕ, a1 < a2 → a2 ≤ 180 →
      pulse_length (a1 : ℚ) < pulse_length (a2 : ℚ)) ∧
    pulse_length 180 = pca9685_max_pwm_value := by
  refine ⟨?_, ?_, ?_⟩
  · intro a1 a2 h0 h12 h2
    rw [pulse_length_eq_toNat a1 (le_trans h12 h2), pulse_length_eq_toNat a2 h2]
    apply Int.toNat_le_toNat
    apply Int.floor_le_floor
    gcongr
  · intro a1 a2 h12 h2
    have hc : (a1 : ℚ) + 1 ≤ (a2 : ℚ) := by exact_mod_cast h12
    have key : (a1:ℚ) / 180 * (pca9685_max_pwm_value : ℚ) + 22 ≤
        (a2:ℚ) / 180 * (pca9685_max_pwm_value : ℚ) := by
      rw [div_mul_eq_mul_div, div_mul_eq_mul_div, ← sub_nonneg]
      have hr : (a2:ℚ) * (pca9685_max_pwm_value : ℚ) / 180 -
          ((a1:ℚ) * (pca9685_max_pwm_value : ℚ) / 180 + 22) =
          (((a2:ℚ) - a1) * 4095 - 3960) / 180 := by
        norm_num [pca9685_max_pwm_value]
        ring
      rw [hr]
      apply div_nonneg _ (by norm_num)
      nlinarith
    have hfl : ⌊(a1:ℚ) / 180 * (pca9685_max_pwm_value : ℚ)⌋ + 22 ≤
        ⌊(a2:ℚ) / 180 * (pca9685_max_pwm_value : ℚ)⌋ := by
      have h22 : ⌊(a1:ℚ) / 180 * (pca9685_max_pwm_value : ℚ)⌋ + (22:ℤ) =
          ⌊(a1:ℚ) / 180 * (pca9685_max_pwm_value : ℚ) + ((22:ℤ):ℚ)⌋ :=
        (Int.floor_add_int _ _).symm
      rw [h22]
      apply Int.floor_le_floor
      push_cast
      exact key
    have hpos1 : (0:ℤ) ≤ ⌊(a1:ℚ) / 180 * (pca9685_max_pwm_value : ℚ)⌋ :=
      Int.floor_nonneg.mpr (by positivity)
    rw [pulse_length_eq_toNat (a1:ℚ)
          (by exact_mod_cast le_trans (le_of_lt h12) h2),
        pulse_length_eq_toNat (a2:ℚ) (by exact_mod_cast h2)]
    omega
  · rw [pulse_length_eq_toNat 180 (le_refl 180)]
    norm_num [pca9685_max_pwm_value]
    decide

/-- C7 amended, instantiated at angles 90 ≤ 180 (monotone) and at integer
angles 89 < 90 (strict). -/
theorem C7_amended_witness :
    pulse_length 90 ≤ pulse_length 180 ∧
    pulse_length ((89 : ℕ) : ℚ) < pulse_length ((90 : ℕ) : ℚ) :=
  ⟨C7_amended.1 90 180 (by norm_num) (by norm_num) (by norm_num),
    C7_amended.2.1 89 90 (by norm_num) (by norm_num)⟩

/-- C8 counterexample: the claim fails on the code by a truncation.  In
the scenario (board id 1, channel mask {0,3}, angle 90°) the off-time
issued on the bus is the truncated duty value 2047 (= low byte 255, high
byte 7 in the trace), which is not equal to (90/180) times the maximum
duty value, an equality the claim asserts: (90/180)·4095 = 2047.5. -/
theorem C8_counterexample :
    (pca9685_set_angle [⟨0x41, true, 1, 2⟩, ⟨0x40, true, 0, 2⟩] 9 1 90
        ⟨[], []⟩).2.trace =
      [.writeByte 6 65, .writeByte 255 65, .writeByte 7 65,
        .writeByte 18 65, .writeByte 255 65, .writeByte 7 65] ∧
    pulse_length 90 = 2047 ∧
    ((2047 : ℚ) ≠ 90 / 180 * (pca9685_max_pwm_value : ℚ)) := by
  refine ⟨?_, pulse_length_90, ?_⟩
  · have h : pca9685_set_angle [⟨0x41, true, 1, 2⟩, ⟨0x40, true, 0, 2⟩] 9 1 90
        ⟨[], []⟩ =
        (.ok, ⟨[], [.writeByte 6 65, .writeByte 255 65, .writeByte 7 65,
          .writeByte 18 65, .writeByte 255 65, .writeByte 7 65]⟩) := by
      show pca9685_write_channels (List.range 16) 9 (pulse_length 90) 65
          ⟨[], []⟩ = _
      rw [pulse_length_90]
      rfl
    rw [h]
  · norm_num [pca9685_max_pwm_value]

/-- C8 amended: on the registry produced by registering two boards, the
scenario (board id 1, channel mask selecting {0,3}, angle 90°, all bus
writes succeeding) issues exactly six single-byte writes — for channel 0
and channel 3 only, each a three-byte sequence: the channel's ON_L
register command (the code's encoding of on-time 0), then the low byte
255 and high byte 7 of the off-time ⌊(90/180)·4095⌋ = 2047 — touching no
other channel, and reports success. -/
theorem C8_amended :
    (pca9685_init [] 2 [] ⟨[], []⟩).2.1 =
      [⟨0x41, true, 1, 2⟩, ⟨0x40, true, 0, 2⟩] ∧
    pca9685_set_angle [⟨0x41, true, 1, 2⟩, ⟨0x40, true, 0, 2⟩] 9 1 90
        ⟨[], []⟩ =
      (.ok, ⟨[], [.writeByte (k_pca9685_channel0_on_l_cmd + 4 * 0) 0x41,
        .writeByte (2047 % 256) 0x41, .writeByte (2047 / 256 % 256) 0x41,
        .writeByte (k_pca9685_channel0_on_l_cmd + 4 * 3) 0x41,
        .writeByte (2047 % 256) 0x41, .writeByte (2047 / 256 % 256) 0x41]⟩) ∧
    pulse_length 90 = 2047 := by
  refine ⟨rfl, ?_, pulse_length_90⟩
  show pca9685_write_channels (List.range 16) 9 (pulse_length 90) 65
      ⟨[], []⟩ = _
  rw [pulse_length_90]
  rfl

lemma pca9685_find_board_not_found (reg : List Pca9685Board)
    (mask bid : Nat) (angle : ℚ) (bus : Bus)
    (h : bid ∉ reg.map Pca9685Board.board_id) :
    pca9685_find_board reg mask bid angle bus = (.not_found, bus) := by
  induction reg with
  | nil => rfl
  | cons b rest ih =>
    have h2 : bid ∉ rest.map Pca9685Board.board_id := fun hm =>
      h (by rw [List.map_cons]; exact List.mem_cons_of_mem _ hm)
    have hbid : ¬(b.board_id == bid) = true := by
      simp only [beq_iff_eq]
      intro he
      exact h (by rw [List.map_cons, he]; exact List.mem_cons_self bid _)
    unfold pca9685_find_board
    rw [if_neg hbid]
    exact ih h2

/-- C9 counterexample: the claim fails on the code.  In a registry whose
single board was registered with count 1, a command for the absent id 1
returns `invalid_arg` (the `board_id >= num_boards` guard fires), not the
`not_found` the claim requires — though, as claimed, no bus transaction
is performed. -/
theorem C9_counterexample :
    (1 : Nat) ∉
      ([⟨0x40, true, 0, 1⟩] : List Pca9685Board).map Pca9685Board.board_id ∧
    (pca9685_set_angle [⟨0x40, true, 0, 1⟩] 9 1 90 ⟨[], []⟩).1 =
      EspErr.invalid_arg ∧
    EspErr.invalid_arg ≠ EspErr.not_found ∧
    (pca9685_set_angle [⟨0x40, true, 0, 1⟩] 9 1 90 ⟨[], []⟩).2.trace = [] := by
  refine ⟨by decide, rfl, by decide, rfl⟩

/-- C9 amended: commanding a board id absent from the registry performs
zero bus transactions (the bus is returned unchanged) and returns either
`invalid_arg` or `not_found`: `not_found` exactly when the registry is
non-empty and the id is below the head entry's recorded board count, and
`invalid_arg` otherwise (empty registry, or id ≥ that count). -/
theorem C9_amended (reg : List Pca9685Board) (mask bid : Nat) (angle : ℚ)
    (bus : Bus) (h : bid ∉ reg.map Pca9685Board.board_id) :
    (pca9685_set_angle reg mask bid angle bus).2 = bus ∧
    ((pca9685_set_angle reg mask bid angle bus).1 = EspErr.invalid_arg ∨
      (pca9685_set_angle reg mask bid angle bus).1 = EspErr.not_found) ∧
    (∀ b rest, reg = b :: rest → bid < b.num_boards →
      (pca9685_set_angle reg mask bid angle bus).1 = EspErr.not_found) ∧
    (reg = [] →
      (pca9685_set_angle reg mask bid angle bus).1 = EspErr.invalid_arg) ∧
    (∀ b rest, reg = b :: rest → b.num_boards ≤ bid →
      (pca9685_set_angle reg mask bid angle bus).1 = EspErr.invalid_arg) := by
  cases reg with
  | nil =>
    refine ⟨rfl, Or.inl rfl, ?_, fun _ => rfl, ?_⟩
    · intro b rest hcon
      exact absurd hcon (by simp)
    · intro b rest hcon
      exact absurd hcon (by simp)
  | cons hd tl =>
    unfold pca9685_set_angle
    dsimp only
    by_cases hb : bid ≥ hd.num_boards
    · rw [if_pos hb]
      refine ⟨rfl, Or.inl rfl, ?_, ?_, ?_⟩
      · intro b rest heq hlt
        injection heq with h1 h2
        subst h1
        omega
      · intro hcon
        exact absurd hcon (by simp)
      · intro b rest heq hge
        rfl
    · rw [if_neg hb]
      rw [pca9685_find_board_not_found _ _ _ _ _ h]
      refine ⟨rfl, Or.inr rfl, fun _ _ _ _ => rfl, ?_, ?_⟩
      · intro hcon
        exact absurd hcon (by simp)
      · intro b rest heq hge
        injection heq with h1 h2
        subst h1
        omega

/-- C9 amended, instantiated: in a registry holding boards 1 and 0 that
were registered with count 3 (unit 2 having failed to register), a
command for the absent id 2 returns `not_found` and leaves the bus
untouched; in a registry whose single board was registered with count 1,
a command for the absent id 1 (not below the head count) returns
`invalid_arg`. -/
theorem C9_amended_witness :
    (pca9685_set_angle [⟨0x41, true, 1, 3⟩, ⟨0x40, true, 0, 3⟩] 9 2 90
        ⟨[], []⟩).2 = ⟨[], []⟩ ∧
    (pca9685_set_angle [⟨0x41, true, 1, 3⟩, ⟨0x40, true, 0, 3⟩] 9 2 90
        ⟨[], []⟩).1 = EspErr.not_found ∧
    (pca9685_set_angle [⟨0x40, true, 0, 1⟩] 9 1 45 ⟨[], []⟩).1 =
      EspErr.invalid_arg :=
  ⟨(C9_amended [⟨0x41, true, 1, 3⟩, ⟨0x40, true, 0, 3⟩] 9 2 90 ⟨[], []⟩
      (by decide)).1,
    (C9_amended [⟨0x41, true, 1, 3⟩, ⟨0x40, true, 0, 3⟩] 9 2 90 ⟨[], []⟩
      (by decide)).2.2.1 ⟨0x41, true, 1, 3⟩ [⟨0x40, true, 0, 3⟩] rfl
      (by decide),
    (C9_amended [⟨0x40, true, 0, 1⟩] 9 1 45 ⟨[], []⟩
      (by decide)).2.2.2.2 ⟨0x40, true, 0, 1⟩ [] rfl (by decide)⟩
